import Mathlib

/-!
# Verification of the dana web client (`dana-web-client.py`)

A shallow embedding of the repository's dashboard-publishing script.

The script walks a directory tree `dana/<project>/<series>/<build>`, and for
each series posts an `addSerie` request, then for each build an `addBuild`
request followed by an `addSample` request, to a dana dashboard.  The
embedding models:

* JSON payloads (`Json`) and their serialization (`dumps`), mirroring
  `json.dumps` with its default separators;
* the observable effects of a run (`Effect`): `print` output, `LOGGER.info`
  lines and HTTP POSTs;
* Python exceptions that the script can raise (`PyErr`);
* the shared transport `post_to_dashboard` and the three payload builders /
  publish operations `add_new_optimum_build`, `add_new_optimum_series`,
  `add_new_sample`;
* CPython's `datetime.strptime(name, "%Y%m%d-%H%M%S")`, including the
  lenient field widths of `_strptime`'s compiled regex, and the conversion
  of the parsed naive datetime to a Unix epoch via `.timestamp()`, with the
  process's local timezone modelled as a fixed UTC offset `tz` (in seconds);
* the filesystem (`FSNode`) and the traversal of `main`.

HTTP transport is modelled as a function `String → String → Nat` mapping
(url, body) to the response status code.  A run is modelled as the pair of
the list of effects produced before the run ends and an optional uncaught
exception (`List Effect × Option PyErr`).
-/

/-- A JSON value, as built by the script's payload dictionaries.  Object
fields are kept in insertion order, exactly as a Python `dict` preserves
insertion order when serialized by `json.dumps`. -/
inductive Json where
  | str (s : String)
  | int (n : Int)
  | rat (q : Rat)
  | bool (b : Bool)
  | obj (fields : List (String × Json))

/-- One hexadecimal digit, lower case, as produced by `json.dumps` in its
`\uXXXX` escapes. -/
def hexDigit (k : Nat) : Char :=
  if k < 10 then Char.ofNat (48 + k) else Char.ofNat (87 + k)

/-- Four-digit lower-case hexadecimal rendering of `n % 65536`. -/
def hex4 (n : Nat) : String :=
  String.mk [hexDigit (n / 4096 % 16), hexDigit (n / 256 % 16),
             hexDigit (n / 16 % 16), hexDigit (n % 16)]

/-- Escaping of one character inside a JSON string, following `json.dumps`
with its default `ensure_ascii=True`: the two-character escapes for
quote, backslash, backspace, form feed, newline, carriage return and tab;
`\uXXXX` for the remaining control characters and for all non-ASCII
characters (with surrogate pairs above the BMP). -/
def escapeChar (ch : Char) : String :=
  if ch = '"' then "\\\""
  else if ch = '\\' then "\\\\"
  else if ch.toNat = 8 then "\\b"
  else if ch.toNat = 12 then "\\f"
  else if ch = '\n' then "\\n"
  else if ch.toNat = 13 then "\\r"
  else if ch = '\t' then "\\t"
  else if ch.toNat < 32 then "\\u" ++ hex4 ch.toNat
  else if ch.toNat < 128 then String.singleton ch
  else if ch.toNat < 65536 then "\\u" ++ hex4 ch.toNat
  else
    "\\u" ++ hex4 (55296 + (ch.toNat - 65536) / 1024) ++
    "\\u" ++ hex4 (56320 + (ch.toNat - 65536) % 1024)

/-- JSON string serialization: quote, escape each character, quote. -/
def dumpString (s : String) : String :=
  "\"" ++ String.join (s.data.map escapeChar) ++ "\""

mutual

/-- `json.dumps` with its default arguments: separators `", "` and `": "`,
insertion-ordered keys.  Python renders the script's floats with `repr`;
no claim serializes a float, so `Json.rat` is rendered with Lean's `Rat`
printer (a documented modelling simplification). -/
def dumps : Json → String
  | Json.str s => dumpString s
  | Json.int n => toString n
  | Json.rat q => toString q
  | Json.bool b => if b then "true" else "false"
  | Json.obj fields => "\x7b" ++ dumpsFields fields ++ "\x7d"

/-- Comma-separated rendering of the fields of a JSON object. -/
def dumpsFields : List (String × Json) → String
  | [] => ""
  | [(k, v)] => dumpString k ++ ": " ++ dumps v
  | (k, v) :: f :: rest => dumpString k ++ ": " ++ dumps v ++ ", " ++ dumpsFields (f :: rest)

end

/-- The keys of a JSON object (empty for non-objects). -/
def jsonKeys : Json → List String
  | Json.obj fields => fields.map Prod.fst
  | _ => []

/-- An observable effect of the script: `print` to stdout, a `LOGGER.info`
line, or an HTTP POST (url, serialized body, `Authorization` header value;
the `Content-Type` header is the constant `"application/json"`). -/
inductive Effect where
  | print (s : String)
  | logInfo (s : String)
  | httpPost (url : String) (body : String) (auth : String)
deriving DecidableEq

/-- The Python exceptions the script can raise. -/
inductive PyErr where
  | valueError          -- `datetime.strptime` on a non-matching name
  | typeError           -- a call with an unexpected keyword argument
  | indexError          -- `[0]` on an empty list
  | keyError            -- a missing dict key
  | fileNotFoundError   -- a missing file
  | notADirectoryError  -- iterating / descending into a non-directory
  | isADirectoryError   -- opening a directory as a file
deriving DecidableEq

/-- The result of running a piece of the script: the effects it produced,
and the uncaught exception that ended it, if any. -/
abbrev RunResult := List Effect × Option PyErr

/-- The urls of the HTTP POST effects in a trace, in order. -/
def postUrls (evs : List Effect) : List String :=
  evs.filterMap fun e =>
    match e with
    | Effect.httpPost url _ _ => some url
    | _ => none

/-- The `print` effects in a trace, in order. -/
def printsOf (evs : List Effect) : List Effect :=
  evs.filter fun e =>
    match e with
    | Effect.print _ => true
    | _ => false

/-- `post_to_dashboard` (lines 129-153).  Serializes the payload; prints it
when `dry_run or verbose`; returns before any network call when `dry_run`;
otherwise POSTs the body with the JSON content type and bearer
authorization, and logs the response status code.  The HTTP transport `tr`
maps (url, body) to the response status code; the function inspects nothing
but the status code and has no raise path. -/
def post_to_dashboard (tr : String → String → Nat) (dashboard_url : String)
    (bearer_token : String) (payload : Json) (dry_run : Bool) (verbose : Bool) :
    RunResult :=
  let data := dumps payload
  let prints := if dry_run || verbose then [Effect.print ("API request payload: " ++ data)] else []
  if dry_run then
    (prints, none)
  else
    let code := tr dashboard_url data
    (prints ++ [Effect.httpPost dashboard_url data ("Bearer " ++ bearer_token),
                Effect.logInfo ("API response code: " ++ toString code)], none)

/-- The `build_payload` dictionary of `add_new_optimum_build` (lines 29-43),
with its hardcoded placeholder commit metadata. -/
def build_payload (project_id : String) (build_id : Int) (override : Bool) : Json :=
  Json.obj
    [("projectId", Json.str project_id),
     ("build", Json.obj
        [("buildId", Json.int build_id),
         ("infos", Json.obj
            [("hash", Json.str "commit_hash"),
             ("abbrevHash", Json.str "commit_abbrev_hash"),
             ("authorName", Json.str "ilyas"),
             ("authorEmail", Json.str "ilyas@gmail.com"),
             ("subject", Json.str "commit_subject"),
             ("url", Json.str "commit_url")])]),
     ("override", Json.bool override)]

/-- `add_new_optimum_build` (lines 14-51).  Its parameters are exactly
`project_id`, `build_id`, `dashboard_url`, `bearer_token`, `override`,
`dry_run`, `verbose` — the signature declares no `series_id` parameter. -/
def add_new_optimum_build (tr : String → String → Nat) (project_id : String)
    (build_id : Int) (dashboard_url : String) (bearer_token : String)
    (override : Bool) (dry_run : Bool) (verbose : Bool) : RunResult :=
  post_to_dashboard tr (dashboard_url ++ "/apis/addBuild") bearer_token
    (build_payload project_id build_id override) dry_run verbose

/-- The `series_payload` dictionary of `add_new_optimum_series`
(lines 72-86): four base fields, and a `description` key appended (in
insertion order) only when `series_description is not None`. -/
def series_payload (project_id : String) (series_id : String)
    (series_description : Option String) (override : Bool)
    (average_range : Nat) (average_min_count : Nat) (better_criterion : String) : Json :=
  let base := [("projectId", Json.str project_id),
               ("serieId", Json.str series_id),
               ("analyse", Json.obj
                  [("benchmark", Json.obj
                     [("range", Json.int average_range),
                      ("required", Json.int average_min_count),
                      ("trend", Json.str better_criterion)])]),
               ("override", Json.bool override)]
  match series_description with
  | none => Json.obj base
  | some d => Json.obj (base ++ [("description", Json.str d)])

/-- `add_new_optimum_series` (lines 54-94).  The Python defaults
`average_range=5`, `average_min_count=3`, `better_criterion="lower"` are
passed explicitly by callers of this embedding. -/
def add_new_optimum_series (tr : String → String → Nat) (project_id : String)
    (series_id : String) (dashboard_url : String) (bearer_token : String)
    (series_description : Option String) (override : Bool) (dry_run : Bool)
    (verbose : Bool) (average_range : Nat) (average_min_count : Nat)
    (better_criterion : String) : RunResult :=
  post_to_dashboard tr (dashboard_url ++ "/apis/addSerie") bearer_token
    (series_payload project_id series_id series_description override
       average_range average_min_count better_criterion) dry_run verbose

/-- The `sample_payload` dictionary of `add_new_sample` (lines 113-118). -/
def sample_payload (project_id : String) (series_id : String) (build_id : Int)
    (sample_value : Rat) (override : Bool) : Json :=
  Json.obj
    [("projectId", Json.str project_id),
     ("serieId", Json.str series_id),
     ("sample", Json.obj
        [("buildId", Json.int build_id),
         ("value", Json.rat sample_value)]),
     ("override", Json.bool override)]

/-- `add_new_sample` (lines 97-126).  The sample value flows unchanged into
the payload's `sample.value` field. -/
def add_new_sample (tr : String → String → Nat) (project_id : String)
    (series_id : String) (build_id : Int) (sample_value : Rat)
    (dashboard_url : String) (bearer_token : String) (override : Bool)
    (dry_run : Bool) (verbose : Bool) : RunResult :=
  post_to_dashboard tr (dashboard_url ++ "/apis/addSample") bearer_token
    (sample_payload project_id series_id build_id sample_value override)
    dry_run verbose

/-!
## The Gregorian calendar and `datetime` timestamps

`main` derives a `build_id` with
`int(datetime.strptime(build_folder.name, "%Y%m%d-%H%M%S").timestamp())`.
For a naive datetime, CPython's `timestamp()` converts the civil
(year, month, day, hour, minute, second) tuple to a Unix epoch using the
process's local timezone; we model the local timezone as a fixed UTC offset
`tz` in seconds (no daylight-saving transitions), so that
`timestamp = 86400 * (toordinal(y,m,d) - 719163) + 3600*h + 60*mi + s - tz`,
where `toordinal` counts days of the proleptic Gregorian calendar from
0001-01-01 (= day 1), and 719163 is `date(1970,1,1).toordinal()`.

`epochDays y m d` below computes `toordinal(y,m,d) - 719163` with the
standard era-based day count (eras of 400 years = 146097 days, with
March-based years so the leap day is the last day of the shifted year):
both count the days of the same calendar, so they agree on every valid
date; the concrete evaluations at the end of this development pin the
embedding to known `datetime` values (the Unix epoch itself, a leap day,
and a negative timestamp).

`civilOfEpoch` is the inverse conversion (as performed by
`datetime.fromtimestamp` followed by `strftime` when the spec formats an
epoch back); its correctness is the content of `civil_roundtrip`.
-/

/-- Gregorian leap year, as in `calendar.isleap` / `datetime`. -/
def isLeap (y : Nat) : Prop := y % 4 = 0 ∧ (y % 100 ≠ 0 ∨ y % 400 = 0)

instance (y : Nat) : Decidable (isLeap y) := by unfold isLeap; exact inferInstance

/-- Days in a month of the Gregorian calendar (`_days_in_month`). -/
def daysInMonth (y m : Nat) : Nat :=
  if m = 2 then (if isLeap y then 29 else 28)
  else if m = 4 ∨ m = 6 ∨ m = 9 ∨ m = 11 then 30 else 31

/-- A civil datetime: the components that `datetime(year, month, day,
hour, minute, second)` stores. -/
structure Civil where
  year : Nat
  month : Nat
  day : Nat
  hour : Nat
  minute : Nat
  second : Nat
deriving DecidableEq, Repr

/-- The component ranges accepted by the `datetime` constructor (with the
second range `0..59` — `datetime` rejects leap seconds). -/
def validCivil (c : Civil) : Prop :=
  1 ≤ c.year ∧ c.year ≤ 9999 ∧ 1 ≤ c.month ∧ c.month ≤ 12 ∧ 1 ≤ c.day ∧
    c.day ≤ daysInMonth c.year c.month ∧ c.hour ≤ 23 ∧ c.minute ≤ 59 ∧ c.second ≤ 59

instance (c : Civil) : Decidable (validCivil c) := by unfold validCivil; exact inferInstance

/-- Day-of-era (0-based, eras starting on 1 March of years ≡ 1 mod 400) of
a date given by year-of-era, month and day. -/
def doeOfYmd (yoe m d : Nat) : Nat :=
  yoe * 365 + yoe / 4 - yoe / 100 + (153 * ((m + 9) % 12) + 2) / 5 + (d - 1)

/-- `date(y, m, d).toordinal() - 719163`: the day number of a civil date
counted from 1970-01-01, era-decomposed (146097 days per 400-year era;
719468 days from 0000-03-01 to 1970-01-01). -/
def epochDays (y m d : Nat) : Int :=
  (((y - (if m ≤ 2 then 1 else 0)) / 400) * 146097
     + doeOfYmd ((y - (if m ≤ 2 then 1 else 0)) % 400) m d : Nat) - 719468

/-- `datetime(...).timestamp() + tz` for a naive datetime in a fixed-offset
local timezone: the epoch the civil tuple denotes in UTC.  The caller
subtracts the local offset `tz`. -/
def epochOfCivil (c : Civil) : Int :=
  86400 * epochDays c.year c.month c.day +
    (3600 * c.hour + 60 * c.minute + c.second : Nat)

/-- Year-of-era recovered from a day-of-era. -/
def yoeOfDoe (doe : Nat) : Nat :=
  (doe - doe / 1460 + doe / 36524 - doe / 146096) / 365

/-- Day-of-year (March-based) recovered from a day-of-era. -/
def doyOfDoe (doe : Nat) : Nat :=
  doe - (yoeOfDoe doe * 365 + yoeOfDoe doe / 4 - yoeOfDoe doe / 100)

/-- Shifted month (0 = March, ..., 11 = February) recovered from a
day-of-era. -/
def mpOfDoe (doe : Nat) : Nat := (5 * doyOfDoe doe + 2) / 153

/-- (year-of-era, month, day) of a day-of-era. -/
def ymdOfDoe (doe : Nat) : Nat × Nat × Nat :=
  (yoeOfDoe doe,
   if mpOfDoe doe < 10 then mpOfDoe doe + 3 else mpOfDoe doe - 9,
   doyOfDoe doe - (153 * mpOfDoe doe + 2) / 5 + 1)

/-- The civil datetime of day `z` (counted from 0000-03-01) at second
`sod` of the day. -/
def civilOfParts (z sod : Nat) : Civil :=
  ⟨(ymdOfDoe (z % 146097)).1 + (z / 146097) * 400
     + (if (ymdOfDoe (z % 146097)).2.1 ≤ 2 then 1 else 0),
   (ymdOfDoe (z % 146097)).2.1, (ymdOfDoe (z % 146097)).2.2,
   sod / 3600, sod % 3600 / 60, sod % 60⟩

/-- The civil datetime (in a fixed-offset local timezone whose offset the
caller has already added to `t`) of a Unix epoch: what
`datetime.fromtimestamp` produces. -/
def civilOfEpoch (t : Int) : Civil :=
  civilOfParts (t / 86400 + 719468).toNat (t % 86400).toNat

/-- Endpoint check for one year-of-era: the recovery formula is correct at
the first and last day of the year. -/
def yoeCheck (yoe : Nat) : Bool :=
  let lo := yoe * 365 + yoe / 4 - yoe / 100
  let hi := lo + 364 + (if isLeap (yoe + 1) then 1 else 0)
  decide (yoeOfDoe lo = yoe) && decide (yoeOfDoe hi = yoe)

/-- Balanced evaluation of `f` over `[lo, lo + n)`: true when every point
satisfies `f`.  The divide-and-conquer shape keeps kernel reduction depth
logarithmic. -/
def checkRange (f : Nat → Bool) : Nat → Nat → Nat → Bool
  | 0, lo, n => decide (n = 0) || (decide (n = 1) && f lo)
  | fuel + 1, lo, n =>
    if n ≤ 1 then (decide (n = 0) || (decide (n = 1) && f lo))
    else checkRange f fuel lo (n / 2) && checkRange f fuel (lo + n / 2) (n - n / 2)

/-!
## `datetime.strptime(name, "%Y%m%d-%H%M%S")`

CPython's `_strptime` compiles the format to the regex
`(?P<Y>\d\d\d\d)(?P<m>1[0-2]|0[1-9]|[1-9])(?P<d>3[01]|[12]\d|0[1-9]|[1-9])\-(?P<H>2[0-3]|[0-1]\d|\d)(?P<M>[0-5]\d|\d)(?P<S>6[0-1]|[0-5]\d|\d)`,
matches it at the start of the string (ordered-alternative backtracking,
first full pattern match wins, possibly a proper prefix), raises
`ValueError` when the match fails or does not consume the whole string,
and then builds the `datetime`, which validates the component ranges.
Note the one- and two-digit alternatives: names outside the fixed-width
`YYYYMMDD-HHMMSS` shape can still parse (e.g. `202411-123456` parses as
2024-01-01 12:34:56).

Each `...Cands` function below returns the candidate (value, rest) pairs
of one field in the regex's alternative order; `strpCandidates` chains
them depth-first, so its head is exactly the first backtracking match.
-/

/-- An ASCII digit. -/
def isDig (ch : Char) : Prop := 48 ≤ ch.toNat ∧ ch.toNat ≤ 57

instance (ch : Char) : Decidable (isDig ch) := by unfold isDig; exact inferInstance

/-- The numeric value of an ASCII digit. -/
def dval (ch : Char) : Nat := ch.toNat - 48

-- %Y : (?P<Y>\d\d\d\d) — exactly four digits

def yCands : List Char → List (Nat × List Char)
  | c1 :: c2 :: c3 :: c4 :: r =>
    if isDig c1 ∧ isDig c2 ∧ isDig c3 ∧ isDig c4 then
      [(((dval c1 * 10 + dval c2) * 10 + dval c3) * 10 + dval c4, r)]
    else []
  | _ => []

-- %m : (?P<m>1[0-2]|0[1-9]|[1-9])

def mCands : List Char → List (Nat × List Char)
  | c1 :: c2 :: r =>
    (if isDig c1 ∧ isDig c2 ∧ dval c1 = 1 ∧ dval c2 ≤ 2 then [(10 + dval c2, r)] else []) ++
    (if isDig c1 ∧ isDig c2 ∧ dval c1 = 0 ∧ 1 ≤ dval c2 then [(dval c2, r)] else []) ++
    (if isDig c1 ∧ 1 ≤ dval c1 then [(dval c1, c2 :: r)] else [])
  | [c1] => if isDig c1 ∧ 1 ≤ dval c1 then [(dval c1, [])] else []
  | [] => []

-- %d : (?P<d>3[01]|[12]\d|0[1-9]|[1-9])

def dCands : List Char → List (Nat × List Char)
  | c1 :: c2 :: r =>
    (if isDig c1 ∧ isDig c2 ∧ dval c1 = 3 ∧ dval c2 ≤ 1 then [(30 + dval c2, r)] else []) ++
    (if isDig c1 ∧ isDig c2 ∧ (dval c1 = 1 ∨ dval c1 = 2) then [(10 * dval c1 + dval c2, r)] else []) ++
    (if isDig c1 ∧ isDig c2 ∧ dval c1 = 0 ∧ 1 ≤ dval c2 then [(dval c2, r)] else []) ++
    (if isDig c1 ∧ 1 ≤ dval c1 then [(dval c1, c2 :: r)] else [])
  | [c1] => if isDig c1 ∧ 1 ≤ dval c1 then [(dval c1, [])] else []
  | [] => []

-- %H : (?P<H>2[0-3]|[0-1]\d|\d)

def hCands : List Char → List (Nat × List Char)
  | c1 :: c2 :: r =>
    (if isDig c1 ∧ isDig c2 ∧ dval c1 = 2 ∧ dval c2 ≤ 3 then [(20 + dval c2, r)] else []) ++
    (if isDig c1 ∧ isDig c2 ∧ dval c1 ≤ 1 then [(10 * dval c1 + dval c2, r)] else []) ++
    (if isDig c1 then [(dval c1, c2 :: r)] else [])
  | [c1] => if isDig c1 then [(dval c1, [])] else []
  | [] => []

-- %M : (?P<M>[0-5]\d|\d)

def minCands : List Char → List (Nat × List Char)
  | c1 :: c2 :: r =>
    (if isDig c1 ∧ isDig c2 ∧ dval c1 ≤ 5 then [(10 * dval c1 + dval c2, r)] else []) ++
    (if isDig c1 then [(dval c1, c2 :: r)] else [])
  | [c1] => if isDig c1 then [(dval c1, [])] else []
  | [] => []

-- %S : (?P<S>6[0-1]|[0-5]\d|\d)

def sCands : List Char → List (Nat × List Char)
  | c1 :: c2 :: r =>
    (if isDig c1 ∧ isDig c2 ∧ dval c1 = 6 ∧ dval c2 ≤ 1 then [(60 + dval c2, r)] else []) ++
    (if isDig c1 ∧ isDig c2 ∧ dval c1 ≤ 5 then [(10 * dval c1 + dval c2, r)] else []) ++
    (if isDig c1 then [(dval c1, c2 :: r)] else [])
  | [c1] => if isDig c1 then [(dval c1, [])] else []
  | [] => []

-- the literal '-'

def dashCands : List Char → List (List Char)
  | c :: r => if c = '-' then [r] else []
  | [] => []

/-- All prefix matches of the compiled pattern, in backtracking order. -/
def strpCandidates (cs : List Char) : List (Civil × List Char) :=
  (yCands cs).flatMap fun py =>
  (mCands py.2).flatMap fun pm =>
  (dCands pm.2).flatMap fun pd =>
  (dashCands pd.2).flatMap fun r3 =>
  (hCands r3).flatMap fun ph =>
  (minCands ph.2).flatMap fun pmi =>
  (sCands pmi.2).map fun ps => (⟨py.1, pm.1, pd.1, ph.1, pmi.1, ps.1⟩, ps.2)

/-- `datetime.strptime(name, "%Y%m%d-%H%M%S")`: take the regex's first
match, require that it consumed the whole string (else
`ValueError: unconverted data remains`), and require the component ranges
of the `datetime` constructor (else `ValueError`). -/
def strptimeYmdHMS (name : String) : Option Civil :=
  match strpCandidates name.data with
  | [] => none
  | (c, rest) :: _ => if rest = [] ∧ validCivil c then some c else none

/-- The fixed-width reading of the pattern `YYYYMMDD-HHMMSS`: exactly
fifteen characters, digits in the eight date and six time positions, a
dash between them, and the components in `datetime` range.  On its domain
it agrees with the lenient `strptimeYmdHMS` (`strptime_of_parseStrict`). -/
def parseStrict (name : String) : Option Civil :=
  match name.data with
  | [y1, y2, y3, y4, m1, m2, d1, d2, dash, h1, h2, n1, n2, s1, s2] =>
    if isDig y1 ∧ isDig y2 ∧ isDig y3 ∧ isDig y4 ∧ isDig m1 ∧ isDig m2 ∧
       isDig d1 ∧ isDig d2 ∧ dash = '-' ∧ isDig h1 ∧ isDig h2 ∧ isDig n1 ∧
       isDig n2 ∧ isDig s1 ∧ isDig s2 then
      let c : Civil :=
        ⟨((dval y1 * 10 + dval y2) * 10 + dval y3) * 10 + dval y4,
         10 * dval m1 + dval m2, 10 * dval d1 + dval d2,
         10 * dval h1 + dval h2, 10 * dval n1 + dval n2, 10 * dval s1 + dval s2⟩
      if validCivil c then some c else none
    else none
  | _ => none

def digitChar (n : Nat) : Char := Char.ofNat (48 + n)

def pad2 (n : Nat) : List Char := [digitChar (n / 10 % 10), digitChar (n % 10)]

def pad4 (n : Nat) : List Char :=
  [digitChar (n / 1000 % 10), digitChar (n / 100 % 10),
   digitChar (n / 10 % 10), digitChar (n % 10)]

/-- `strftime("%Y%m%d-%H%M%S")` of a civil datetime: every field
zero-padded to its width. -/
def formatCivil (c : Civil) : String :=
  ⟨pad4 c.year ++ pad2 c.month ++ pad2 c.day ++ ['-'] ++
   pad2 c.hour ++ pad2 c.minute ++ pad2 c.second⟩

/-- The `build_id` of `main` (lines 194-196):
`int(datetime.strptime(name, "%Y%m%d-%H%M%S").timestamp())` with the local
timezone modelled as the fixed UTC offset `tz` (seconds east).  The
timestamp of an integral-second datetime is an exact integer, so the
`int(...)` truncation is the identity. -/
def buildIdOfName (tz : Int) (name : String) : Option Int :=
  (strptimeYmdHMS name).map fun c => epochOfCivil c - tz

/-- Formatting a Unix epoch back with `strftime("%Y%m%d-%H%M%S")` in the
same fixed-offset local timezone (the spec side of the round-trip
property; the script itself never formats). -/
def formatTimestamp (tz : Int) (epoch : Int) : String :=
  formatCivil (civilOfEpoch (epoch + tz))

/-!
## The filesystem and the traversal of `main`

`main` (lines 156-232) hardcodes `DASHBOARD_URL = "http://localhost:7000"`,
`OVERRIDE = True`, `DRY_RUN = False`, `VERBOSE = False`, reads the bearer
token from `token.txt` (a parameter here), and walks
`dana/<project>/<series>/<build>` with `Path.iterdir`, which yields every
directory entry — files as well as subdirectories, in directory order.

A significant defect of the source shapes this embedding: the call at
lines 201-210 passes `series_id=series_id` to `add_new_optimum_build`,
whose signature (lines 14-22) declares no `series_id` parameter, so the
call raises `TypeError: add_new_optimum_build() got an unexpected keyword
argument 'series_id'` before the function body runs.  Processing of every
build therefore stops right after the `Processing buld ...` log line, and
the CSV read and `add_new_sample` call of lines 212-232 are unreachable
(they are embedded separately as `readSampleValue` for the claims about
the sample computation).
-/

/-- The content of a file, at the granularity the script inspects it:
a structured-text configuration (`hydra_config.yaml`, kept as the text
that `OmegaConf.load` + `OmegaConf.to_yaml` reproduce), or a CSV results
file (kept as its parsed records: one association list per row). -/
inductive FileData where
  | yaml (text : String)
  | csv (rows : List (List (String × Rat)))

/-- A filesystem node: a file or a directory with named entries in
directory-listing order. -/
inductive FSNode where
  | file (data : FileData)
  | dir (entries : List (String × FSNode))

/-- The hardcoded dashboard url of `main` (line 158). -/
def DASHBOARD_URL : String := "http://localhost:7000"

/-- `list(series_foler.glob("*/hydra_config.yaml"))` (line 178): for each
immediate subdirectory (pathlib's `*` with a further component descends
only into directories), the child named `hydra_config.yaml` if present,
in directory order. -/
def configMatches (entries : List (String × FSNode)) : List FSNode :=
  entries.filterMap fun e =>
    match e.2 with
    | FSNode.dir inner => inner.lookup "hydra_config.yaml"
    | FSNode.file _ => none

/-- `OmegaConf.to_yaml(OmegaConf.load(path))` (lines 178-179): loading a
directory raises `IsADirectoryError`; the round trip through OmegaConf is
modelled as returning the stored configuration text.  (The claims never
load a file that is not a YAML configuration; for such a file the model
returns an empty description.) -/
def loadDescription : FSNode → Except PyErr String
  | FSNode.file (FileData.yaml text) => Except.ok text
  | FSNode.file (FileData.csv _) => Except.ok ""
  | FSNode.dir _ => Except.error PyErr.isADirectoryError

/-- The CSV column read by `main` (line 218). -/
def latencyColumn : String := "Model latency mean (s)"

/-- Lines 212-218 of `main` (unreachable in the current code, see above):
`pd.read_csv(build_folder / "inference_results.csv").to_dict("records")[0]`
followed by `["Model latency mean (s)"] * 1000`.  A missing file raises
`FileNotFoundError` (`NotADirectoryError` when the build entry is itself a
file), a directory raises `IsADirectoryError`, an empty record list makes
`[0]` raise `IndexError`, and a missing column raises `KeyError`.  (A
results file not modelled as CSV records would make pandas parse its raw
text, which the claims never exercise; the model maps it to a parse
error.) -/
def readSampleValue (build : FSNode) : Except PyErr Rat :=
  match build with
  | FSNode.file _ => Except.error PyErr.notADirectoryError
  | FSNode.dir entries =>
    match entries.lookup "inference_results.csv" with
    | none => Except.error PyErr.fileNotFoundError
    | some (FSNode.dir _) => Except.error PyErr.isADirectoryError
    | some (FSNode.file (FileData.yaml _)) => Except.error PyErr.valueError
    | some (FSNode.file (FileData.csv rows)) =>
      match rows with
      | [] => Except.error PyErr.indexError
      | row :: _ =>
        match row.lookup latencyColumn with
        | none => Except.error PyErr.keyError
        | some v => Except.ok (v * 1000)

/-- The build loop of `main` (lines 192-232) over the entries of a series
directory, in directory order.  For the first entry: the name is parsed
(`ValueError` aborts the run before anything is logged or published for
that build); on success the `Processing buld ...` line is logged and then
the call `add_new_optimum_build(project_id=..., build_id=...,
series_id=series_id, ...)` (lines 201-210) raises `TypeError`, because the
function's signature (lines 14-22) has no `series_id` parameter.  The rest
of the loop body and all later iterations are unreachable.  The entry's
node is never inspected: a regular file is processed exactly like a
directory. -/
def runBuilds (tz : Int) : List (String × FSNode) → RunResult
  | [] => ([], none)
  | (name, _) :: _ =>
    match buildIdOfName tz name with
    | none => ([], some PyErr.valueError)
    | some build_id =>
      ([Effect.logInfo ("\t\t + Processing buld " ++ toString build_id ++ "...")],
       some PyErr.typeError)

/-- The series body of `main` (lines 173-232): log the series, locate and
load the configuration (`IndexError` on zero glob matches, before any
publish call for the series; `NotADirectoryError` when the series entry
is a regular file, since globbing scans it as a directory), publish the
series with the loaded description, then run the build loop over the same
entries. -/
def runSeries (tz : Int) (tr : String → String → Nat) (bearer_token : String)
    (project_id : String) (series_id : String) (snode : FSNode) : RunResult :=
  let logE := Effect.logInfo ("\t + Processing series " ++ series_id ++ "...")
  match snode with
  | FSNode.file _ => ([logE], some PyErr.notADirectoryError)
  | FSNode.dir entries =>
    match configMatches entries with
    | [] => ([logE], some PyErr.indexError)
    | cfg :: _ =>
      match loadDescription cfg with
      | Except.error e => ([logE], some e)
      | Except.ok desc =>
        match add_new_optimum_series tr project_id series_id DASHBOARD_URL bearer_token
            (some desc) true false false 5 3 "lower" with
        | (ev1, some e) => (logE :: ev1, some e)
        | (ev1, none) =>
          match runBuilds tz entries with
          | (ev2, r2) => (logE :: ev1 ++ ev2, r2)

/-- Sequential processing of a list of directory entries, stopping at the
first uncaught exception (Python's `for` loop semantics: effects of
completed iterations persist). -/
def runEntries (f : String × FSNode → RunResult) : List (String × FSNode) → RunResult
  | [] => ([], none)
  | e :: rest =>
    match f e with
    | (ev, some err) => (ev, some err)
    | (ev, none) =>
      match runEntries f rest with
      | (ev2, r2) => (ev ++ ev2, r2)

/-- The project body of `main` (lines 169-232): log the project, then
iterate its entries as series.  When the project entry is a regular file,
`iterdir` raises `NotADirectoryError` at the first iteration — after the
project log, before any series processing. -/
def runProject (tz : Int) (tr : String → String → Nat) (bearer_token : String)
    (name : String) (node : FSNode) : RunResult :=
  let logE := Effect.logInfo (" + Processing project " ++ name ++ "...")
  match node with
  | FSNode.file _ => ([logE], some PyErr.notADirectoryError)
  | FSNode.dir series =>
    match runEntries (fun e => runSeries tz tr bearer_token name e.1 e.2) series with
    | (ev, r) => (logE :: ev, r)

/-- `main` (lines 156-232) over the entries of the `dana` root directory,
with the token already read from `token.txt`. -/
def runMain (tz : Int) (tr : String → String → Nat) (bearer_token : String)
    (root : List (String × FSNode)) : RunResult :=
  runEntries (fun e => runProject tz tr bearer_token e.1 e.2) root

/-- A concrete transport used in closed evaluations: every POST gets
status 200. -/
def trOk : String → String → Nat := fun _ _ => 200

/-!
## The claims
-/

/-- The fixed-width textual pattern `YYYYMMDD-HHMMSS`: fifteen characters,
digits everywhere except a dash at position 8. -/
def matchesPattern (name : String) : Bool :=
  match name.data with
  | [y1, y2, y3, y4, m1, m2, d1, d2, dash, h1, h2, n1, n2, s1, s2] =>
    decide (isDig y1 ∧ isDig y2 ∧ isDig y3 ∧ isDig y4 ∧ isDig m1 ∧ isDig m2 ∧
      isDig d1 ∧ isDig d2 ∧ dash = '-' ∧ isDig h1 ∧ isDig h2 ∧ isDig n1 ∧
      isDig n2 ∧ isDig s1 ∧ isDig s2)
  | _ => false

/-- A well-formed artifact tree: one project `p1`, one series `s1`, one
build `20240115-093000` holding the series configuration and a one-row
results CSV.  Used only in the evaluation of claim C1. -/
def sampleTree : List (String × FSNode) :=
  [("p1", FSNode.dir
     [("s1", FSNode.dir
        [("20240115-093000", FSNode.dir
           [("hydra_config.yaml", FSNode.file (FileData.yaml "backend: pytorch")),
            ("inference_results.csv",
             FSNode.file (FileData.csv [[(latencyColumn, 21 / 500)]]))])])])]

/-!
## Theorems

The development's lemmas, the claims' theorems and the closed
evaluations that pin the embedding to known concrete values.
-/

set_option maxRecDepth 4000 in
/-- The year-recovery formula is correct at all 800 year boundaries. -/
theorem yoeCheckAll : checkRange yoeCheck 9 0 400 = true := by rfl

/-- `checkRange` really checks every point of the range. -/
theorem checkRange_spec (f : Nat → Bool) :
    ∀ fuel lo n, checkRange f fuel lo n = true → ∀ k, lo ≤ k → k < lo + n → f k = true := by
  intro fuel
  induction fuel with
  | zero =>
    intro lo n h k hk1 hk2
    simp only [checkRange, Bool.or_eq_true, Bool.and_eq_true, decide_eq_true_eq] at h
    rcases h with h | ⟨h1, h2⟩
    · omega
    · have hk : k = lo := by omega
      rw [hk]; exact h2
  | succ fuel ih =>
    intro lo n h k hk1 hk2
    simp only [checkRange] at h
    by_cases hn : n ≤ 1
    · rw [if_pos hn] at h
      simp only [Bool.or_eq_true, Bool.and_eq_true, decide_eq_true_eq] at h
      rcases h with h | ⟨h1, h2⟩
      · omega
      · have hk : k = lo := by omega
        rw [hk]; exact h2
    · rw [if_neg hn] at h
      rw [Bool.and_eq_true] at h
      by_cases hk : k < lo + n / 2
      · exact ih lo (n / 2) h.1 k hk1 hk
      · exact ih (lo + n / 2) (n - n / 2) h.2 k (by omega) (by omega)

/-- The numerator of the year-recovery formula is monotone. -/
theorem numerMono (a b : Nat) (h : a ≤ b) :
    a - a / 1460 + a / 36524 - a / 146096 ≤ b - b / 1460 + b / 36524 - b / 146096 := by
  omega

/-- Year-of-era recovery: monotone sandwich between the two checked
endpoints of the year. -/
theorem yoeRecover (yoe doy : Nat) (h1 : yoe < 400)
    (h2 : doy ≤ 364 + (if isLeap (yoe + 1) then 1 else 0)) :
    yoeOfDoe (yoe * 365 + yoe / 4 - yoe / 100 + doy) = yoe := by
  have hc := checkRange_spec yoeCheck 9 0 400 yoeCheckAll yoe (by omega) (by omega)
  simp only [yoeCheck, Bool.and_eq_true, decide_eq_true_eq] at hc
  obtain ⟨hlo, hhi⟩ := hc
  unfold yoeOfDoe at hlo hhi ⊢
  set lo := yoe * 365 + yoe / 4 - yoe / 100 with hlodef
  set doe := lo + doy with hdoedef
  set hi := lo + 364 + (if isLeap (yoe + 1) then 1 else 0) with hhidef
  have m1 := numerMono lo doe (by omega)
  have m2 := numerMono doe hi (by omega)
  have d1 := Nat.div_le_div_right (c := 365) m1
  have d2 := Nat.div_le_div_right (c := 365) m2
  omega

theorem ymdOfDoe_formula (yoe doyM : Nat) (h1 : yoe < 400)
    (h2 : doyM ≤ 364 + (if isLeap (yoe + 1) then 1 else 0)) :
    yoeOfDoe (yoe * 365 + yoe / 4 - yoe / 100 + doyM) = yoe ∧
    doyOfDoe (yoe * 365 + yoe / 4 - yoe / 100 + doyM) = doyM ∧
    yoe * 365 + yoe / 4 - yoe / 100 + doyM < 146097 := by
  have hy := yoeRecover yoe doyM h1 h2
  have hLb : (if isLeap (yoe + 1) then 1 else 0) ≤ 1 := by split <;> omega
  refine ⟨hy, ?_, ?_⟩
  · unfold doyOfDoe
    rw [hy]
    omega
  · omega

theorem ymd_assemble (yoe m d doyM : Nat) (h1 : yoe < 400)
    (hdoyM : doyM ≤ 364 + (if isLeap (yoe + 1) then 1 else 0))
    (hsplit : doeOfYmd yoe m d = yoe * 365 + yoe / 4 - yoe / 100 + doyM)
    (hmp : (5 * doyM + 2) / 153 = (m + 9) % 12)
    (hday : doyM - (153 * ((m + 9) % 12) + 2) / 5 + 1 = d)
    (hma : 1 ≤ m) (hmb : m ≤ 12) :
    ymdOfDoe (doeOfYmd yoe m d) = (yoe, m, d) ∧ doeOfYmd yoe m d < 146097 := by
  obtain ⟨hy, hdoy, hbnd⟩ := ymdOfDoe_formula yoe doyM h1 hdoyM
  rw [← hsplit] at hy hdoy hbnd
  refine ⟨?_, hbnd⟩
  unfold ymdOfDoe mpOfDoe
  rw [hy, hdoy, hmp, hday]
  refine Prod.ext rfl (Prod.ext ?_ rfl)
  simp only []
  split <;> omega

theorem ymd_roundtrip (yoe m d : Nat) (h1 : yoe < 400) (hm1 : 1 ≤ m) (hm2 : m ≤ 12)
    (hd1 : 1 ≤ d) (hd2 : d ≤ daysInMonth (yoe + (if m ≤ 2 then 1 else 0)) m) :
    ymdOfDoe (doeOfYmd yoe m d) = (yoe, m, d) ∧ doeOfYmd yoe m d < 146097 := by
  have hLb : (if isLeap (yoe + 1) then 1 else 0) ≤ 1 := by split <;> omega
  by_cases h2 : m = 2
  · subst h2
    have hdim29 : daysInMonth (yoe + 1) 2 = 28 + (if isLeap (yoe + 1) then 1 else 0) := by
      by_cases hl : isLeap (yoe + 1) <;> simp [daysInMonth, hl]
    rw [show yoe + (if (2 : Nat) ≤ 2 then 1 else 0) = yoe + 1 by norm_num, hdim29] at hd2
    exact ymd_assemble yoe 2 d (336 + d) h1 (by omega) (by unfold doeOfYmd; omega)
      (by omega) (by omega) (by omega) (by omega)
  · have hd31 : d ≤ 31 := by
      have hub : daysInMonth (yoe + (if m ≤ 2 then 1 else 0)) m ≤ 31 := by
        unfold daysInMonth
        rw [if_neg h2]
        split <;> omega
      omega
    interval_cases m
    · exact ymd_assemble yoe 1 d (305 + d) h1 (by omega) (by unfold doeOfYmd; omega)
        (by omega) (by omega) (by omega) (by omega)
    · omega
    · exact ymd_assemble yoe 3 d (d - 1) h1 (by omega) (by unfold doeOfYmd; omega)
        (by omega) (by omega) (by omega) (by omega)
    · have hd30 : d ≤ 30 := by simpa [daysInMonth] using hd2
      exact ymd_assemble yoe 4 d (30 + d) h1 (by omega) (by unfold doeOfYmd; omega)
        (by omega) (by omega) (by omega) (by omega)
    · exact ymd_assemble yoe 5 d (60 + d) h1 (by omega) (by unfold doeOfYmd; omega)
        (by omega) (by omega) (by omega) (by omega)
    · have hd30 : d ≤ 30 := by simpa [daysInMonth] using hd2
      exact ymd_assemble yoe 6 d (91 + d) h1 (by omega) (by unfold doeOfYmd; omega)
        (by omega) (by omega) (by omega) (by omega)
    · exact ymd_assemble yoe 7 d (121 + d) h1 (by omega) (by unfold doeOfYmd; omega)
        (by omega) (by omega) (by omega) (by omega)
    · exact ymd_assemble yoe 8 d (152 + d) h1 (by omega) (by unfold doeOfYmd; omega)
        (by omega) (by omega) (by omega) (by omega)
    · have hd30 : d ≤ 30 := by simpa [daysInMonth] using hd2
      exact ymd_assemble yoe 9 d (183 + d) h1 (by omega) (by unfold doeOfYmd; omega)
        (by omega) (by omega) (by omega) (by omega)
    · exact ymd_assemble yoe 10 d (213 + d) h1 (by omega) (by unfold doeOfYmd; omega)
        (by omega) (by omega) (by omega) (by omega)
    · have hd30 : d ≤ 30 := by simpa [daysInMonth] using hd2
      exact ymd_assemble yoe 11 d (244 + d) h1 (by omega) (by unfold doeOfYmd; omega)
        (by omega) (by omega) (by omega) (by omega)
    · exact ymd_assemble yoe 12 d (274 + d) h1 (by omega) (by unfold doeOfYmd; omega)
        (by omega) (by omega) (by omega) (by omega)

theorem civilOfEpoch_split (Dn S : Nat) (hS : S < 86400) :
    civilOfEpoch (86400 * ((Dn : Int) - 719468) + (S : Int)) = civilOfParts Dn S := by
  unfold civilOfEpoch
  have hz : ((86400 * ((Dn : Int) - 719468) + (S : Int)) / 86400 + 719468).toNat = Dn := by
    omega
  have hsod : ((86400 * ((Dn : Int) - 719468) + (S : Int)) % 86400).toNat = S := by
    omega
  rw [hz, hsod]

theorem civilOfParts_formula (era doe hh mi s : Nat) (hdoe : doe < 146097)
    (hmi : mi ≤ 59) (hs : s ≤ 59) :
    civilOfParts (era * 146097 + doe) (3600 * hh + 60 * mi + s)
      = ⟨(ymdOfDoe doe).1 + era * 400 + (if (ymdOfDoe doe).2.1 ≤ 2 then 1 else 0),
         (ymdOfDoe doe).2.1, (ymdOfDoe doe).2.2, hh, mi, s⟩ := by
  unfold civilOfParts
  have h1 : (era * 146097 + doe) % 146097 = doe := by omega
  have h2 : (era * 146097 + doe) / 146097 = era := by omega
  have e1 : (3600 * hh + 60 * mi + s) / 3600 = hh := by omega
  have e2 : (3600 * hh + 60 * mi + s) % 3600 / 60 = mi := by omega
  have e3 : (3600 * hh + 60 * mi + s) % 60 = s := by omega
  rw [h1, h2, e1, e2, e3]

/-- The calendar round trip: converting a valid civil datetime to its epoch
and back restores every component. -/
theorem civil_roundtrip (c : Civil) (h : validCivil c) :
    civilOfEpoch (epochOfCivil c) = c := by
  obtain ⟨y, m, d, hh, mi, s⟩ := c
  obtain ⟨hy1, hy2, hm1, hm2, hd1, hd2, hhh, hmi, hs⟩ := h
  simp only at hy1 hy2 hm1 hm2 hd1 hd2 hhh hmi hs
  have hb : (if m ≤ 2 then 1 else 0) ≤ 1 := by split <;> omega
  have hb0 : (if m ≤ 2 then 1 else 0) ≤ y := by omega
  have hyoe400 : (y - (if m ≤ 2 then 1 else 0)) % 400 < 400 := Nat.mod_lt _ (by omega)
  have hleap : isLeap y ↔ isLeap ((y - (if m ≤ 2 then 1 else 0)) % 400 + (if m ≤ 2 then 1 else 0)) := by
    unfold isLeap
    omega
  have hdim : d ≤ daysInMonth ((y - (if m ≤ 2 then 1 else 0)) % 400 + (if m ≤ 2 then 1 else 0)) m := by
    by_cases h2 : m = 2
    · subst h2
      have e1 : daysInMonth y 2 = 28 + (if isLeap y then 1 else 0) := by
        by_cases hl : isLeap y <;> simp [daysInMonth, hl]
      have e2 : daysInMonth ((y - 1) % 400 + 1) 2 = 28 + (if isLeap ((y - 1) % 400 + 1) then 1 else 0) := by
        by_cases hl : isLeap ((y - 1) % 400 + 1) <;> simp [daysInMonth, hl]
      rw [e1] at hd2
      rw [show (if (2 : Nat) ≤ 2 then 1 else 0) = 1 by norm_num] at hleap ⊢
      rw [e2]
      have e3 : (if isLeap y then 1 else 0) = (if isLeap ((y - 1) % 400 + 1) then 1 else 0) := by
        by_cases hl : isLeap y
        · rw [if_pos hl, if_pos (hleap.mp hl)]
        · rw [if_neg hl, if_neg (fun hc => hl (hleap.mpr hc))]
      omega
    · have e1 : daysInMonth ((y - (if m ≤ 2 then 1 else 0)) % 400 + (if m ≤ 2 then 1 else 0)) m
          = daysInMonth y m := by
        unfold daysInMonth
        rw [if_neg h2, if_neg h2]
      rw [e1]
      exact hd2
  obtain ⟨hrt1, hrt2⟩ :=
    ymd_roundtrip ((y - (if m ≤ 2 then 1 else 0)) % 400) m d hyoe400 hm1 hm2 hd1 hdim
  have hS : (3600 * hh + 60 * mi + s : Nat) < 86400 := by omega
  have h1 : epochOfCivil ⟨y, m, d, hh, mi, s⟩
      = 86400 * ((((y - (if m ≤ 2 then 1 else 0)) / 400 * 146097
          + doeOfYmd ((y - (if m ≤ 2 then 1 else 0)) % 400) m d : Nat) : Int) - 719468)
        + ((3600 * hh + 60 * mi + s : Nat) : Int) := rfl
  rw [h1, civilOfEpoch_split _ _ hS, civilOfParts_formula _ _ _ _ _ hrt2 hmi hs, hrt1]
  simp only [Civil.mk.injEq, and_true, true_and]
  split <;> omega

example : epochOfCivil ⟨2024, 1, 15, 9, 30, 0⟩ = 1705311000 := by decide

example : epochOfCivil ⟨1970, 1, 1, 0, 0, 0⟩ = 0 := by decide

example : epochOfCivil ⟨2000, 2, 29, 0, 0, 0⟩ = 951782400 := by decide

example : civilOfEpoch 951782400 = ⟨2000, 2, 29, 0, 0, 0⟩ := by decide

example : civilOfEpoch 0 = ⟨1970, 1, 1, 0, 0, 0⟩ := by decide

example : epochOfCivil ⟨1969, 12, 31, 23, 59, 59⟩ = -1 := by decide

example : civilOfEpoch (-1) = ⟨1969, 12, 31, 23, 59, 59⟩ := by decide

example : strptimeYmdHMS "20240115-093000" = some ⟨2024, 1, 15, 9, 30, 0⟩ := by decide

example : parseStrict "20240115-093000" = some ⟨2024, 1, 15, 9, 30, 0⟩ := by decide

example : strptimeYmdHMS "202411-123456" = some ⟨2024, 1, 1, 12, 34, 56⟩ := by decide

example : parseStrict "202411-123456" = none := by decide

example : strptimeYmdHMS "2024-01-15" = none := by decide

example : strptimeYmdHMS "20240230-101010" = none := by decide

example : strptimeYmdHMS "20241301-000000" = none := by decide

example : strptimeYmdHMS "20240115-093061" = none := by decide

example : strptimeYmdHMS "20240115-0930000" = none := by decide

theorem dval_lt (ch : Char) (h : isDig ch) : dval ch ≤ 9 := by
  unfold isDig at h
  unfold dval
  omega

theorem mCands_head (c1 c2 : Char) (r : List Char) (h1 : isDig c1) (h2 : isDig c2)
    (hlo : 1 ≤ 10 * dval c1 + dval c2) (hhi : 10 * dval c1 + dval c2 ≤ 12) :
    ∃ t, mCands (c1 :: c2 :: r) = (10 * dval c1 + dval c2, r) :: t := by
  have e1 := dval_lt c1 h1
  have e2 := dval_lt c2 h2
  have hc : dval c1 = 0 ∨ dval c1 = 1 := by omega
  simp only [mCands]
  rcases hc with hc | hc
  · refine ⟨if isDig c1 ∧ 1 ≤ dval c1 then [(dval c1, c2 :: r)] else [], ?_⟩
    rw [if_neg (by rw [hc]; rintro ⟨-, -, h, -⟩; omega),
        if_pos ⟨h1, h2, hc, by omega⟩, hc]
    simp
  · refine ⟨(if isDig c1 ∧ isDig c2 ∧ dval c1 = 0 ∧ 1 ≤ dval c2 then [(dval c2, r)] else []) ++
      (if isDig c1 ∧ 1 ≤ dval c1 then [(dval c1, c2 :: r)] else []), ?_⟩
    rw [if_pos ⟨h1, h2, hc, by omega⟩, hc]
    simp

theorem dCands_head (c1 c2 : Char) (r : List Char) (h1 : isDig c1) (h2 : isDig c2)
    (hlo : 1 ≤ 10 * dval c1 + dval c2) (hhi : 10 * dval c1 + dval c2 ≤ 31) :
    ∃ t, dCands (c1 :: c2 :: r) = (10 * dval c1 + dval c2, r) :: t := by
  have e1 := dval_lt c1 h1
  have e2 := dval_lt c2 h2
  have hc : dval c1 = 0 ∨ (dval c1 = 1 ∨ dval c1 = 2) ∨ dval c1 = 3 := by omega
  simp only [dCands]
  rcases hc with hc | hc | hc
  · refine ⟨if isDig c1 ∧ 1 ≤ dval c1 then [(dval c1, c2 :: r)] else [], ?_⟩
    rw [if_neg (by rw [hc]; rintro ⟨-, -, h, -⟩; omega),
        if_neg (by rw [hc]; rintro ⟨-, -, h⟩; omega),
        if_pos ⟨h1, h2, hc, by omega⟩, hc]
    simp
  · refine ⟨(if isDig c1 ∧ isDig c2 ∧ dval c1 = 0 ∧ 1 ≤ dval c2 then [(dval c2, r)] else []) ++
      (if isDig c1 ∧ 1 ≤ dval c1 then [(dval c1, c2 :: r)] else []), ?_⟩
    rw [if_neg (by rintro ⟨-, -, h, -⟩; omega), if_pos ⟨h1, h2, hc⟩]
    simp
  · refine ⟨(if isDig c1 ∧ isDig c2 ∧ (dval c1 = 1 ∨ dval c1 = 2) then [(10 * dval c1 + dval c2, r)] else []) ++
      (if isDig c1 ∧ isDig c2 ∧ dval c1 = 0 ∧ 1 ≤ dval c2 then [(dval c2, r)] else []) ++
      (if isDig c1 ∧ 1 ≤ dval c1 then [(dval c1, c2 :: r)] else []), ?_⟩
    rw [if_pos ⟨h1, h2, hc, by omega⟩, hc]
    simp

theorem hCands_head (c1 c2 : Char) (r : List Char) (h1 : isDig c1) (h2 : isDig c2)
    (hhi : 10 * dval c1 + dval c2 ≤ 23) :
    ∃ t, hCands (c1 :: c2 :: r) = (10 * dval c1 + dval c2, r) :: t := by
  have e1 := dval_lt c1 h1
  have e2 := dval_lt c2 h2
  have hc : dval c1 ≤ 1 ∨ dval c1 = 2 := by omega
  simp only [hCands]
  rcases hc with hc | hc
  · refine ⟨if isDig c1 then [(dval c1, c2 :: r)] else [], ?_⟩
    rw [if_neg (by rintro ⟨-, -, h, -⟩; omega), if_pos ⟨h1, h2, hc⟩]
    simp
  · refine ⟨(if isDig c1 ∧ isDig c2 ∧ dval c1 ≤ 1 then [(10 * dval c1 + dval c2, r)] else []) ++
      (if isDig c1 then [(dval c1, c2 :: r)] else []), ?_⟩
    rw [if_pos ⟨h1, h2, hc, by omega⟩, hc]
    simp

theorem minCands_head (c1 c2 : Char) (r : List Char) (h1 : isDig c1) (h2 : isDig c2)
    (hhi : 10 * dval c1 + dval c2 ≤ 59) :
    ∃ t, minCands (c1 :: c2 :: r) = (10 * dval c1 + dval c2, r) :: t := by
  have e1 := dval_lt c1 h1
  have e2 := dval_lt c2 h2
  simp only [minCands]
  refine ⟨if isDig c1 then [(dval c1, c2 :: r)] else [], ?_⟩
  rw [if_pos ⟨h1, h2, by omega⟩]
  simp

theorem sCands_head (c1 c2 : Char) (r : List Char) (h1 : isDig c1) (h2 : isDig c2)
    (hhi : 10 * dval c1 + dval c2 ≤ 59) :
    ∃ t, sCands (c1 :: c2 :: r) = (10 * dval c1 + dval c2, r) :: t := by
  have e1 := dval_lt c1 h1
  have e2 := dval_lt c2 h2
  simp only [sCands]
  refine ⟨if isDig c1 then [(dval c1, c2 :: r)] else [], ?_⟩
  rw [if_neg (by rintro ⟨-, -, h, -⟩; omega), if_pos ⟨h1, h2, by omega⟩]
  simp

/-- On fixed-width names the lenient parser returns the fixed-width
reading: the two-digit alternative of every field is tried first and the
rest of the pattern then succeeds. -/
theorem strptime_of_parseStrict (name : String) (c : Civil)
    (h : parseStrict name = some c) : strptimeYmdHMS name = some c := by
  unfold parseStrict at h
  unfold strptimeYmdHMS strpCandidates
  rcases hdata : name.data with - | ⟨y1, - | ⟨y2, - | ⟨y3, - | ⟨y4, - | ⟨m1, - | ⟨m2,
    - | ⟨d1, - | ⟨d2, - | ⟨dash, - | ⟨h1, - | ⟨h2, - | ⟨n1, - | ⟨n2, - | ⟨s1,
    - | ⟨s2, - | ⟨x, xs⟩⟩⟩⟩⟩⟩⟩⟩⟩⟩⟩⟩⟩⟩⟩⟩ <;> rw [hdata] at h <;>
    simp only [] at h <;> try exact Option.noConfusion h
  split at h
  case isFalse => exact Option.noConfusion h
  case isTrue hdig =>
  obtain ⟨hy1, hy2, hy3, hy4, hm1, hm2, hd1, hd2, hdash, hh1, hh2, hn1, hn2, hs1, hs2⟩ := hdig
  split at h
  case isFalse => exact Option.noConfusion h
  case isTrue hvalid =>
  injection h with h
  subst h
  obtain ⟨hvy1, hvy2, hvm1, hvm2, hvd1, hvd2, hvh, hvmi, hvs⟩ := hvalid
  simp only [] at hvy1 hvy2 hvm1 hvm2 hvd1 hvd2 hvh hvmi hvs
  rw [show yCands (y1 :: y2 :: y3 :: y4 :: m1 :: m2 :: d1 :: d2 :: dash :: h1 :: h2 :: n1 :: n2 :: s1 :: s2 :: [])
      = [(((dval y1 * 10 + dval y2) * 10 + dval y3) * 10 + dval y4,
          m1 :: m2 :: d1 :: d2 :: dash :: h1 :: h2 :: n1 :: n2 :: s1 :: s2 :: [])] from by
    simp only [yCands]; rw [if_pos ⟨hy1, hy2, hy3, hy4⟩]]
  have hdmax : daysInMonth (((dval y1 * 10 + dval y2) * 10 + dval y3) * 10 + dval y4)
      (10 * dval m1 + dval m2) ≤ 31 := by
    unfold daysInMonth
    split
    · split <;> omega
    · split <;> omega
  obtain ⟨tm, htm⟩ := mCands_head m1 m2 _ hm1 hm2 (by omega) (by omega)
  obtain ⟨td, htd⟩ := dCands_head d1 d2 _ hd1 hd2 (by omega) (by omega)
  obtain ⟨th, hth⟩ := hCands_head h1 h2 _ hh1 hh2 (by omega)
  obtain ⟨tmi, htmi⟩ := minCands_head n1 n2 _ hn1 hn2 (by omega)
  obtain ⟨ts, hts⟩ := sCands_head s1 s2 _ hs1 hs2 (by omega)
  rw [List.flatMap_cons, htm, List.flatMap_cons, htd, List.flatMap_cons]
  rw [show dashCands (dash :: h1 :: h2 :: n1 :: n2 :: s1 :: s2 :: [])
      = [h1 :: h2 :: n1 :: n2 :: s1 :: s2 :: []] from by
    simp only [dashCands]; rw [if_pos hdash]]
  rw [List.flatMap_cons, hth, List.flatMap_cons, htmi, List.flatMap_cons, hts]
  simp only [List.map_cons, List.flatMap_nil, List.cons_append, List.nil_append,
    List.append_assoc]
  rw [if_pos ⟨trivial, ⟨hvy1, hvy2, hvm1, hvm2, hvd1, hvd2, hvh, hvmi, hvs⟩⟩]

theorem digitChar_dval (ch : Char) (h : isDig ch) : digitChar (dval ch) = ch := by
  unfold isDig at h
  unfold digitChar dval
  rw [show 48 + (ch.toNat - 48) = ch.toNat by omega]
  exact Char.ofNat_toNat ch

theorem pad2_digits (c1 c2 : Char) (h1 : isDig c1) (h2 : isDig c2) :
    pad2 (10 * dval c1 + dval c2) = [c1, c2] := by
  have e1 := dval_lt c1 h1
  have e2 := dval_lt c2 h2
  unfold pad2
  rw [show (10 * dval c1 + dval c2) / 10 % 10 = dval c1 by omega,
      show (10 * dval c1 + dval c2) % 10 = dval c2 by omega,
      digitChar_dval c1 h1, digitChar_dval c2 h2]

theorem pad4_digits (c1 c2 c3 c4 : Char) (h1 : isDig c1) (h2 : isDig c2)
    (h3 : isDig c3) (h4 : isDig c4) :
    pad4 (((dval c1 * 10 + dval c2) * 10 + dval c3) * 10 + dval c4) = [c1, c2, c3, c4] := by
  have e1 := dval_lt c1 h1
  have e2 := dval_lt c2 h2
  have e3 := dval_lt c3 h3
  have e4 := dval_lt c4 h4
  unfold pad4
  rw [show (((dval c1 * 10 + dval c2) * 10 + dval c3) * 10 + dval c4) / 1000 % 10 = dval c1 by omega,
      show (((dval c1 * 10 + dval c2) * 10 + dval c3) * 10 + dval c4) / 100 % 10 = dval c2 by omega,
      show (((dval c1 * 10 + dval c2) * 10 + dval c3) * 10 + dval c4) / 10 % 10 = dval c3 by omega,
      show (((dval c1 * 10 + dval c2) * 10 + dval c3) * 10 + dval c4) % 10 = dval c4 by omega,
      digitChar_dval c1 h1, digitChar_dval c2 h2, digitChar_dval c3 h3, digitChar_dval c4 h4]

/-- A strictly parsed name is a valid civil tuple, and formatting the
tuple back reproduces the name character by character. -/
theorem parseStrict_elim (name : String) (c : Civil)
    (h : parseStrict name = some c) : validCivil c ∧ formatCivil c = name := by
  unfold parseStrict at h
  rcases hdata : name.data with - | ⟨y1, - | ⟨y2, - | ⟨y3, - | ⟨y4, - | ⟨m1, - | ⟨m2,
    - | ⟨d1, - | ⟨d2, - | ⟨dash, - | ⟨h1, - | ⟨h2, - | ⟨n1, - | ⟨n2, - | ⟨s1,
    - | ⟨s2, - | ⟨x, xs⟩⟩⟩⟩⟩⟩⟩⟩⟩⟩⟩⟩⟩⟩⟩⟩ <;> rw [hdata] at h <;>
    simp only [] at h <;> try exact Option.noConfusion h
  split at h
  case isFalse => exact Option.noConfusion h
  case isTrue hdig =>
  obtain ⟨hy1, hy2, hy3, hy4, hm1, hm2, hd1, hd2, hdash, hh1, hh2, hn1, hn2, hs1, hs2⟩ := hdig
  split at h
  case isFalse => exact Option.noConfusion h
  case isTrue hvalid =>
  injection h with h
  subst h
  refine ⟨hvalid, ?_⟩
  apply String.ext
  show pad4 _ ++ pad2 _ ++ pad2 _ ++ ['-'] ++ pad2 _ ++ pad2 _ ++ pad2 _ = name.data
  rw [hdata, pad4_digits y1 y2 y3 y4 hy1 hy2 hy3 hy4, pad2_digits m1 m2 hm1 hm2,
      pad2_digits d1 d2 hd1 hd2, pad2_digits h1 h2 hh1 hh2, pad2_digits n1 n2 hn1 hn2,
      pad2_digits s1 s2 hs1 hs2, ← hdash]
  simp

example : buildIdOfName 0 "20240115-093000" = some 1705311000 := by decide

example : buildIdOfName 3600 "20240115-093000" = some 1705307400 := by decide

example : formatTimestamp 0 1705311000 = "20240115-093000" := by decide

example : buildIdOfName 0 "202411-123456" = some 1704112496 := by decide

example : buildIdOfName 0 "2024-01-15" = none := by decide

/-- Claim C1 (evidence of the code defect): on a well-formed tree the run
publishes the series and then aborts with `TypeError` at the very first
build — the call at lines 201-210 passes the keyword argument `series_id`,
which `add_new_optimum_build` (lines 14-22) does not accept — so no build
and no sample is ever published: the only HTTP POST of the whole run is
the `addSerie` one. -/
theorem C1_typeError_aborts_before_build_publish :
    runMain 0 trOk "token" sampleTree
      = ([Effect.logInfo " + Processing project p1...",
          Effect.logInfo "\t + Processing series s1...",
          Effect.httpPost (DASHBOARD_URL ++ "/apis/addSerie")
            (dumps (series_payload "p1" "s1" (some "backend: pytorch") true 5 3 "lower"))
            "Bearer token",
          Effect.logInfo "API response code: 200",
          Effect.logInfo "\t\t + Processing buld 1705311000..."],
         some PyErr.typeError) ∧
    postUrls (runMain 0 trOk "token" sampleTree).1 = [DASHBOARD_URL ++ "/apis/addSerie"] := by
  refine ⟨?_, ?_⟩ <;> rfl

/-- Claim C2: the sample value computed from a CSV results file whose
first record maps `Model latency mean (s)` to `v` is exactly `v * 1000`
(no rounding), `add_new_sample` posts exactly the `sample_payload` built
from that value, and the payload places the value verbatim in its
`sample.value` field. -/
theorem C2_sample_value_times_1000
    (entries : List (String × FSNode)) (row : List (String × Rat))
    (rest : List (List (String × Rat))) (v : Rat)
    (hfile : entries.lookup "inference_results.csv"
      = some (FSNode.file (FileData.csv (row :: rest))))
    (hcol : row.lookup latencyColumn = some v) :
    readSampleValue (FSNode.dir entries) = Except.ok (v * 1000) ∧
    (∀ (tr : String → String → Nat) (pid sid : String) (bid : Int)
        (url tok : String) (ov dr vb : Bool),
      add_new_sample tr pid sid bid (v * 1000) url tok ov dr vb
        = post_to_dashboard tr (url ++ "/apis/addSample") tok
            (sample_payload pid sid bid (v * 1000) ov) dr vb) ∧
    (∀ (pid sid : String) (bid : Int) (ov : Bool),
      sample_payload pid sid bid (v * 1000) ov
        = Json.obj
            [("projectId", Json.str pid), ("serieId", Json.str sid),
             ("sample", Json.obj [("buildId", Json.int bid),
                                  ("value", Json.rat (v * 1000))]),
             ("override", Json.bool ov)]) := by
  refine ⟨?_, fun tr pid sid bid url tok ov dr vb => rfl, fun pid sid bid ov => rfl⟩
  simp [readSampleValue, hfile, hcol]

/-- Claim C2, witness: a concrete one-row CSV with latency 0.042 s yields
the sample value 42 ms. -/
theorem C2_witness :
    ([("inference_results.csv", FSNode.file (FileData.csv [[(latencyColumn, 21 / 500)]]))]
        : List (String × FSNode)).lookup "inference_results.csv"
      = some (FSNode.file (FileData.csv [[(latencyColumn, 21 / 500)]])) ∧
    ([(latencyColumn, (21 : Rat) / 500)]).lookup latencyColumn = some ((21 : Rat) / 500) ∧
    readSampleValue (FSNode.dir
        [("inference_results.csv", FSNode.file (FileData.csv [[(latencyColumn, 21 / 500)]]))])
      = Except.ok ((21 : Rat) / 500 * 1000) :=
  ⟨rfl, rfl,
   (C2_sample_value_times_1000
      [("inference_results.csv", FSNode.file (FileData.csv [[(latencyColumn, 21 / 500)]]))]
      [(latencyColumn, 21 / 500)] [] (21 / 500) rfl rfl).1⟩

/-- Claim C3: with `dry_run = true`, `post_to_dashboard` prints the
serialized payload and returns without any HTTP effect, for every payload
and every verbose setting — and hence so do the three publish
operations. -/
theorem C3_dry_run_prints_and_skips_http :
    (∀ (tr : String → String → Nat) (url tok : String) (p : Json) (vb : Bool),
      post_to_dashboard tr url tok p true vb
        = ([Effect.print ("API request payload: " ++ dumps p)], none)) ∧
    (∀ (tr : String → String → Nat) (pid : String) (bid : Int) (url tok : String)
        (ov vb : Bool),
      add_new_optimum_build tr pid bid url tok ov true vb
        = ([Effect.print ("API request payload: "
             ++ dumps (build_payload pid bid ov))], none)) ∧
    (∀ (tr : String → String → Nat) (pid sid url tok : String) (desc : Option String)
        (ov vb : Bool) (r rc : Nat) (bc : String),
      add_new_optimum_series tr pid sid url tok desc ov true vb r rc bc
        = ([Effect.print ("API request payload: "
             ++ dumps (series_payload pid sid desc ov r rc bc))], none)) ∧
    (∀ (tr : String → String → Nat) (pid sid : String) (bid : Int) (v : Rat)
        (url tok : String) (ov vb : Bool),
      add_new_sample tr pid sid bid v url tok ov true vb
        = ([Effect.print ("API request payload: "
             ++ dumps (sample_payload pid sid bid v ov))], none)) := by
  refine ⟨?_, ?_, ?_, ?_⟩ <;> intros <;>
    simp [post_to_dashboard, add_new_optimum_build, add_new_optimum_series, add_new_sample]

/-- Claim C4: `series_payload` with no description has exactly the four
base keys — no `description` key at all — and with a description it has
the same four fields followed by `description`; `add_new_optimum_series`
posts exactly this payload to `/apis/addSerie`. -/
theorem C4_series_description_key_presence :
    (∀ (pid sid : String) (ov : Bool) (r rc : Nat) (bc : String),
      series_payload pid sid none ov r rc bc
        = Json.obj
            [("projectId", Json.str pid), ("serieId", Json.str sid),
             ("analyse", Json.obj
                [("benchmark", Json.obj
                   [("range", Json.int r), ("required", Json.int rc),
                    ("trend", Json.str bc)])]),
             ("override", Json.bool ov)] ∧
      ¬ "description" ∈ jsonKeys (series_payload pid sid none ov r rc bc)) ∧
    (∀ (pid sid : String) (d : String) (ov : Bool) (r rc : Nat) (bc : String),
      series_payload pid sid (some d) ov r rc bc
        = Json.obj
            ([("projectId", Json.str pid), ("serieId", Json.str sid),
              ("analyse", Json.obj
                 [("benchmark", Json.obj
                    [("range", Json.int r), ("required", Json.int rc),
                     ("trend", Json.str bc)])]),
              ("override", Json.bool ov)] ++ [("description", Json.str d)])) ∧
    (∀ (tr : String → String → Nat) (pid sid url tok : String) (desc : Option String)
        (ov dr vb : Bool) (r rc : Nat) (bc : String),
      add_new_optimum_series tr pid sid url tok desc ov dr vb r rc bc
        = post_to_dashboard tr (url ++ "/apis/addSerie") tok
            (series_payload pid sid desc ov r rc bc) dr vb) := by
  refine ⟨fun pid sid ov r rc bc => ⟨rfl, ?_⟩, fun pid sid d ov r rc bc => rfl,
    fun tr pid sid url tok desc ov dr vb r rc bc => rfl⟩
  simp [series_payload, jsonKeys]

/-- Claim C5: a build directory name that matches `YYYYMMDD-HHMMSS`
(strict fixed-width reading, a valid calendar moment) parses to the Unix
epoch of that moment in the (fixed-offset) local timezone, and formatting
that epoch back with the same pattern in the same timezone reproduces the
name. -/
theorem C5_build_id_roundtrip (tz : Int) (name : String) (c : Civil)
    (h : parseStrict name = some c) :
    buildIdOfName tz name = some (epochOfCivil c - tz) ∧
    formatTimestamp tz (epochOfCivil c - tz) = name := by
  obtain ⟨hvalid, hformat⟩ := parseStrict_elim name c h
  have hagree := strptime_of_parseStrict name c h
  constructor
  · unfold buildIdOfName
    rw [hagree]
    rfl
  · unfold formatTimestamp
    rw [show epochOfCivil c - tz + tz = epochOfCivil c by ring]
    rw [civil_roundtrip c hvalid]
    exact hformat

/-- Claim C5, witness: `20240115-093000` at local offset UTC+1. -/
theorem C5_witness :
    parseStrict "20240115-093000" = some ⟨2024, 1, 15, 9, 30, 0⟩ ∧
    (buildIdOfName 3600 "20240115-093000"
        = some (epochOfCivil ⟨2024, 1, 15, 9, 30, 0⟩ - 3600) ∧
     formatTimestamp 3600 (epochOfCivil ⟨2024, 1, 15, 9, 30, 0⟩ - 3600)
        = "20240115-093000") :=
  ⟨by decide,
   C5_build_id_roundtrip 3600 "20240115-093000" ⟨2024, 1, 15, 9, 30, 0⟩ (by decide)⟩

/-- Claim C6, counterexample: `202411-123456` does not match the
fixed-width pattern `YYYYMMDD-HHMMSS`, yet the run does not fail with a
parsing error there: strptime's lenient regex parses it as
2024-01-01 12:34:56, the build is logged and the run aborts with the
`TypeError` of the build-publish call instead. -/
theorem C6_counterexample :
    matchesPattern "202411-123456" = false ∧
    strptimeYmdHMS "202411-123456" = some ⟨2024, 1, 1, 12, 34, 56⟩ ∧
    runBuilds 0 [("202411-123456", FSNode.dir [])]
      = ([Effect.logInfo "\t\t + Processing buld 1704112496..."],
         some PyErr.typeError) := by
  refine ⟨?_, ?_, ?_⟩ <;> decide

/-- Claim C6 (amended): for every build directory name that
`datetime.strptime` rejects, the run fails with a parsing error at that
point — no event is produced for that build or anything after it — and an
erroring iteration stops the enclosing loops, so no later series or
project is processed. -/
theorem C6_parse_failure_aborts :
    (∀ (tz : Int) (name : String) (node : FSNode) (rest : List (String × FSNode)),
      strptimeYmdHMS name = none →
      runBuilds tz ((name, node) :: rest) = ([], some PyErr.valueError)) ∧
    (∀ (f : String × FSNode → RunResult) (e : String × FSNode)
        (rest : List (String × FSNode)) (ev : List Effect) (err : PyErr),
      f e = (ev, some err) → runEntries f (e :: rest) = (ev, some err)) := by
  constructor
  · intro tz name node rest h
    simp [runBuilds, buildIdOfName, h]
  · intro f e rest ev err h
    simp [runEntries, h]

/-- Claim C6, witness: the spec's own scenario name `2024-01-15`, and a
loop whose first iteration fails. -/
theorem C6_witness :
    (strptimeYmdHMS "2024-01-15" = none ∧
     runBuilds 0 [("2024-01-15", FSNode.dir [])] = ([], some PyErr.valueError)) ∧
    ((fun _ => (([], some PyErr.valueError) : RunResult)) ("x", FSNode.dir [])
        = (([], some PyErr.valueError) : RunResult) ∧
     runEntries (fun _ => ([], some PyErr.valueError)) [("x", FSNode.dir [])]
        = ([], some PyErr.valueError)) :=
  ⟨⟨by decide, C6_parse_failure_aborts.1 0 "2024-01-15" (FSNode.dir []) [] (by decide)⟩,
   ⟨rfl, C6_parse_failure_aborts.2 (fun _ => ([], some PyErr.valueError))
      ("x", FSNode.dir []) [] [] PyErr.valueError rfl⟩⟩

/-- Claim C7: a series directory with zero `*/hydra_config.yaml` matches
makes the run fail with `IndexError` — the only event of the series is its
log line; none of the three publish operations has been invoked for it. -/
theorem C7_missing_config_aborts_before_publish
    (tz : Int) (tr : String → String → Nat) (tok pid sid : String)
    (entries : List (String × FSNode)) (h : configMatches entries = []) :
    runSeries tz tr tok pid sid (FSNode.dir entries)
      = ([Effect.logInfo ("\t + Processing series " ++ sid ++ "...")],
         some PyErr.indexError) := by
  simp [runSeries, h]

/-- Claim C7, witness: an empty series directory. -/
theorem C7_witness :
    configMatches ([] : List (String × FSNode)) = [] ∧
    runSeries 0 trOk "token" "p1" "s1" (FSNode.dir [])
      = ([Effect.logInfo "\t + Processing series s1..."], some PyErr.indexError) :=
  ⟨rfl, C7_missing_config_aborts_before_publish 0 trOk "token" "p1" "s1" [] rfl⟩

/-- Claim C8: with `dry_run = false`, for every transport — hence every
HTTP response status code, 2xx or not — `post_to_dashboard` issues exactly
one POST, logs the status code, and returns without raising; and an
iteration that returns without error never stops the enclosing loop, so
subsequent publish calls proceed. -/
theorem C8_status_logged_never_raises :
    (∀ (tr : String → String → Nat) (url tok : String) (p : Json) (vb : Bool),
      post_to_dashboard tr url tok p false vb
        = ((if vb then [Effect.print ("API request payload: " ++ dumps p)] else [])
            ++ [Effect.httpPost url (dumps p) ("Bearer " ++ tok),
                Effect.logInfo ("API response code: " ++ toString (tr url (dumps p)))],
           none)) ∧
    (∀ (f : String × FSNode → RunResult) (e : String × FSNode)
        (rest : List (String × FSNode)) (ev : List Effect),
      f e = (ev, none) →
      runEntries f (e :: rest)
        = (ev ++ (runEntries f rest).1, (runEntries f rest).2)) := by
  constructor
  · intro tr url tok p vb
    simp [post_to_dashboard]
  · intro f e rest ev h
    simp [runEntries, h]

/-- Claim C8, witness: a transport answering 503 still yields a normal
return with the code logged, and the loop continues past a clean
iteration. -/
theorem C8_witness :
    post_to_dashboard (fun _ _ => 503) "http://localhost:7000/apis/addSerie" "token"
        (Json.obj []) false false
      = ([Effect.httpPost "http://localhost:7000/apis/addSerie" "\x7b\x7d" "Bearer token",
          Effect.logInfo "API response code: 503"], none) ∧
    ((fun _ => (([], none) : RunResult)) ("x", FSNode.dir []) = (([], none) : RunResult) ∧
     runEntries (fun _ => ([], none)) [("x", FSNode.dir []), ("y", FSNode.dir [])]
        = ([] ++ (runEntries (fun _ => (([], none) : RunResult)) [("y", FSNode.dir [])]).1,
           (runEntries (fun _ => (([], none) : RunResult)) [("y", FSNode.dir [])]).2)) :=
  ⟨by exact (C8_status_logged_never_raises.1 (fun _ _ => 503)
      "http://localhost:7000/apis/addSerie" "token" (Json.obj []) false),
   ⟨rfl, C8_status_logged_never_raises.2 (fun _ => ([], none))
      ("x", FSNode.dir []) [("y", FSNode.dir [])] [] rfl⟩⟩

/-- Claim C9, counterexample: a regular file under the root is enumerated
and treated as a project — its name is logged as a project being
processed, then iterating it as a directory aborts the whole run. -/
theorem C9_counterexample :
    runMain 0 trOk "token" [("stray.txt", FSNode.file (FileData.yaml "x"))]
      = ([Effect.logInfo " + Processing project stray.txt..."],
         some PyErr.notADirectoryError) := by
  decide

/-- Claim C9 (amended): the scanner enumerates all immediate entries, not
only subdirectories: a regular file under the root is treated as a
project (logged, then `NotADirectoryError` aborts the run), and the build
loop never inspects an entry's kind — a file in a series directory is
processed exactly as a directory would be. -/
theorem C9_entries_never_filtered :
    (∀ (tz : Int) (tr : String → String → Nat) (tok name : String) (data : FileData),
      runProject tz tr tok name (FSNode.file data)
        = ([Effect.logInfo (" + Processing project " ++ name ++ "...")],
           some PyErr.notADirectoryError)) ∧
    (∀ (tz : Int) (name : String) (node node2 : FSNode)
        (rest : List (String × FSNode)),
      runBuilds tz ((name, node) :: rest) = runBuilds tz ((name, node2) :: rest)) :=
  ⟨fun _ _ _ _ _ => rfl, fun _ _ _ _ _ => rfl⟩

/-- Claim C10: when `dry_run` and `verbose` are both true, the payload is
printed exactly once — the `dry_run or verbose` condition guards a single
`print` — and the function returns with no further effect. -/
theorem C10_dry_and_verbose_single_print :
    ∀ (tr : String → String → Nat) (url tok : String) (p : Json),
      post_to_dashboard tr url tok p true true
        = ([Effect.print ("API request payload: " ++ dumps p)], none) ∧
      (printsOf (post_to_dashboard tr url tok p true true).1).length = 1 := by
  intro tr url tok p
  constructor
  · simp [post_to_dashboard]
  · simp [post_to_dashboard, printsOf]
